import Mathlib

/-!
Verification of the `Editor` component (`src/components/Editor.js`).

Text buffers are modelled as `List Char` (`Buf`).  JavaScript string
operations used by the component (`substring`, `trim`, truthiness of a
string) are embedded explicitly.  The React component state is a record
`EditorState`; each handler becomes a pure function from the state (plus
the outcomes of its external calls, passed in as parameters) to a new
state together with a trace of the observable effects it performs.
-/

/-- A text buffer: JavaScript strings as lists of characters. -/
abbrev Buf := List Char

/-- Media references are the opaque `res.result` payloads returned by the
upload call; their structure is irrelevant to the component. -/
abbrev MediaRef := Buf

/-- ECMAScript `String.prototype.trim` whitespace: WhiteSpace and
LineTerminator code points. -/
def isJsWhitespace (c : Char) : Bool :=
  let n := c.toNat
  decide ((9 ≤ n ∧ n ≤ 13) ∨ n = 32 ∨ n = 160 ∨ n = 0x1680 ∨
    (0x2000 ≤ n ∧ n ≤ 0x200A) ∨ n = 0x2028 ∨ n = 0x2029 ∨ n = 0x202F ∨
    n = 0x205F ∨ n = 0x3000 ∨ n = 0xFEFF)

/-- JavaScript `s.trim()`: strip leading and trailing whitespace. -/
def jsTrim (s : Buf) : Buf :=
  ((s.dropWhile isJsWhitespace).reverse.dropWhile isJsWhitespace).reverse

/-- JavaScript `s.substring(a, b)`: both indices are clamped to
`[0, length]` and swapped when out of order. -/
def jsSubstring (s : Buf) (a b : Nat) : Buf :=
  (s.take (max (min a s.length) (min b s.length))).drop
    (min (min a s.length) (min b s.length))

/-- The component state held in the `useState` hooks of `Editor`. -/
structure EditorState where
  title : Buf
  body : Buf
  media : List MediaRef
  mediaLoading : Bool
  category : Buf
  status : Nat
  isDropdownOpen : Bool
  isAILoading : Bool
  error : Buf
deriving Repr, DecidableEq

/-- Embedding of `resetForm`: clear title, body, media, category and error. -/
def resetForm (st : EditorState) : EditorState :=
  { st with title := [], body := [], media := [], category := [], error := [] }

/-- The `disabled` attribute of the Post button:
`!category || !title || !body || status === 1`
(a JavaScript string is falsy exactly when it is empty). -/
def postDisabled (category title body : Buf) (status : Nat) : Bool :=
  category.isEmpty || title.isEmpty || body.isEmpty || status == 1

/-- Embedding of `wrapText(before, after, defaultText)`.  The textarea is a controlled
component whose `value` is the `body` state, so `textarea.value` is
`st.body`; the live selection offsets are passed as `selStart`/`selEnd`.
Returns the new state (only `body` is written, via `setBody`) together
with the selection range the deferred `setSelectionRange` call applies. -/
def wrapText (st : EditorState) (selStart selEnd : Nat)
    (before after defaultText : Buf) : EditorState × Nat × Nat :=
  let selRaw := jsSubstring st.body selStart selEnd
  let selectedText := if selRaw.isEmpty then defaultText else selRaw
  let newText :=
    jsSubstring st.body 0 selStart ++ before ++ selectedText ++ after ++
      jsSubstring st.body selEnd st.body.length
  ({ st with body := newText },
   selStart + before.length, selStart + before.length + selectedText.length)

/-- Outcome of an awaited `fetch`/SDK call: either a response with a
numeric status and a payload, or a thrown exception with a message. -/
inductive FetchResult (α : Type) where
  | resp (status : Nat) (payload : α)
  | exn (msg : Buf)
deriving Repr, DecidableEq

/-- The file picked in the image input; only its MIME type matters. -/
structure FileInput where
  ftype : Buf
deriving Repr, DecidableEq

/-- JavaScript `file.type.match(/^image\//)` is truthy iff the type starts with
`image/`. -/
def isImageType (t : Buf) : Bool :=
  List.isPrefixOf "image/".toList t

/-- Result of a run of `addImage`: the new state, the list of files for
which `orbis.uploadMedia` was called, and the values successively passed
to `setMediaLoading`. -/
structure AddImageOutput where
  state : EditorState
  uploads : List FileInput
  loadingTrace : List Bool
deriving Repr, DecidableEq

/-- Embedding of `addImage(event)`.  `file` is `event.target.files[0]` (`none` when no
file was provided); `upload` is the outcome of `orbis.uploadMedia(file)`;
`ipfsLink` abstracts `getIpfsLink`; `selStart`/`selEnd` are the textarea
selection read by the nested `wrapText` call. -/
def addImage (st : EditorState) (file : Option FileInput)
    (selStart selEnd : Nat) (upload : FetchResult MediaRef)
    (ipfsLink : MediaRef → Buf) : AddImageOutput :=
  let st1 := { st with mediaLoading := true }
  match file with
  | none =>
      { state := { st1 with mediaLoading := false },
        uploads := [], loadingTrace := [true, false] }
  | some f =>
      if isImageType f.ftype then
        match upload with
        | .resp code result =>
            if code = 200 then
              let st2 := (wrapText st1 selStart selEnd "![".toList
                ("](".toList ++ ipfsLink result ++ ")".toList)
                "Image description".toList).1
              let st3 := { st2 with
                media := st2.media ++ [result], mediaLoading := false }
              { state := st3, uploads := [f], loadingTrace := [true, false] }
            else
              { state := { st1 with
                  error := "Error uploading image. Please try again.".toList,
                  mediaLoading := false },
                uploads := [f], loadingTrace := [true, false] }
        | .exn _ =>
            { state := { st1 with
                error := "Failed to upload image. Please try again.".toList,
                mediaLoading := false },
              uploads := [f], loadingTrace := [true, false] }
      else
        { state := { st1 with mediaLoading := false },
          uploads := [], loadingTrace := [true, false] }

/-- Embedding of `awardPoints(did, points)`: posts to `/api/award-points`; a non-ok
response or a thrown exception is caught and turned into `null` (`none`),
so the function never throws.  `resp` is the outcome of the fetch. -/
def awardPoints (did : Buf) (points : Nat) (resp : FetchResult Buf) :
    Option Buf :=
  match resp with
  | .resp status payload =>
      if 200 ≤ status ∧ status < 300 then some payload else none
  | .exn _ => none

/-- Modelled from the spec: the points configuration
(`src/config/points.js`, imported as `POINTS_RULES` but absent from the
sources) provides "the configured point value for post creation"
(`POINTS_RULES.CREATE_POST`).  It is kept abstract as a record parameter. -/
structure PointsRules where
  CREATE_POST : Nat
deriving Repr, DecidableEq

/-- Embedding of `generatePostWithAI`: requires a connected user, raises the AI-loading
flag, and on an ok response replaces the body with the generated content;
any failure sets an inline error.  The flag is cleared in `finally`. -/
def generatePostWithAI (st : EditorState) (user : Option Buf)
    (resp : FetchResult Buf) : EditorState :=
  match user with
  | none => st
  | some _ =>
      let st1 := { st with isAILoading := true }
      let st2 :=
        match resp with
        | .resp code content =>
            if 200 ≤ code ∧ code < 300 then { st1 with body := content }
            else { st1 with
              error := "Failed to generate post. Please try again.".toList }
        | .exn _ =>
            { st1 with
              error := "Failed to generate post. Please try again.".toList }
      { st2 with isAILoading := false }

/-- Observable effects performed by `updateArticle`, in order. -/
inductive Ev where
  | setStatus (n : Nat)
  | sleep (ms : Nat)
  | submitCreate
  | submitEdit
  | pointsCall (did : Buf) (points : Nat)
  | onPostCreatedCb
  | navigateHome
deriving Repr, DecidableEq

/-- The `{ status, error }` shape of an awaited
`orbis.createPost` / `orbis.editPost` response (`error` is empty when the
field is absent). -/
structure OrbisRes where
  status : Nat
  error : Buf
deriving Repr, DecidableEq

/-- Outcome of the awaited create/edit call: a response, or a rejection
with an error message. -/
inductive SubmitOutcome where
  | result (res : OrbisRes)
  | thrown (msg : Buf)
deriving Repr, DecidableEq

/-- Result of a run of `updateArticle`: the new state and the trace of
effects. -/
structure UpdateOutput where
  state : EditorState
  events : List Ev
deriving Repr, DecidableEq

/-- Embedding of `updateArticle()`.  `post` is the optional existing post being edited
(its `stream_id`); `user` is the connected user's `did` when present;
`outcome` is the result of the awaited create/edit call; `pointsRes` the
response the decoupled `awardPoints` fetch would get; `pathname` the
current route.  The parent `onPostCreated` callback is assumed provided
and well-behaved, as is the router. -/
def updateArticle (rules : PointsRules) (st : EditorState)
    (post : Option Buf) (user : Option Buf) (outcome : SubmitOutcome)
    (pointsRes : FetchResult Buf) (pathname : Buf) : UpdateOutput :=
  if st.category.isEmpty then
    { state := { st with error := "Please select a category".toList },
      events := [] }
  else if (jsTrim st.title).isEmpty then
    { state := { st with error := "Please enter a title".toList },
      events := [] }
  else if (jsTrim st.body).isEmpty then
    { state := { st with error := "Please enter content".toList },
      events := [] }
  else
    let st1 := { st with status := 1, error := [] }
    let submitEv := if post.isSome then Ev.submitEdit else Ev.submitCreate
    match outcome with
    | .result res =>
        if res.status = 200 then
          let ptsEvs :=
            match post, user with
            | none, some did =>
                let _ := awardPoints did rules.CREATE_POST pointsRes
                [Ev.pointsCall did rules.CREATE_POST]
            | _, _ => []
          let st2 := resetForm { st1 with status := 2 }
          let navEvs :=
            if pathname = "/".toList then [] else [Ev.navigateHome]
          { state := st2,
            events := [Ev.setStatus 1, submitEv] ++ ptsEvs ++
              [Ev.setStatus 2, Ev.onPostCreatedCb, Ev.sleep 500] ++ navEvs }
        else
          let msg :=
            if res.error.isEmpty then "Failed to create post".toList
            else res.error
          { state := { st1 with error := msg, status := 0 },
            events := [Ev.setStatus 1, submitEv, Ev.setStatus 3,
              Ev.sleep 1000, Ev.setStatus 0] }
    | .thrown msg =>
        let msg2 :=
          if msg.isEmpty then "Failed to create post".toList else msg
        { state := { st1 with error := msg2, status := 0 },
          events := [Ev.setStatus 1, submitEv, Ev.setStatus 3,
            Ev.sleep 1000, Ev.setStatus 0] }

/-- The arguments of the points-award calls appearing in a trace. -/
def pointsCallsOf (evs : List Ev) : List (Buf × Nat) :=
  evs.filterMap fun e =>
    match e with
    | .pointsCall d p => some (d, p)
    | _ => none

/-- The successive values passed to `setStatus` in a trace. -/
def statusTraceOf (evs : List Ev) : List Nat :=
  evs.filterMap fun e =>
    match e with
    | .setStatus n => some n
    | _ => none

/-- The validation checks at the top of `updateArticle`: a category is
chosen and title and body are non-blank after trimming. -/
def draftValid (st : EditorState) : Prop :=
  st.category ≠ [] ∧ jsTrim st.title ≠ [] ∧ jsTrim st.body ≠ []

instance (st : EditorState) : Decidable (draftValid st) := by
  unfold draftValid; infer_instance

/-- The `onChange` handler of the title textarea: `setTitle(e.target.value)`. -/
def onTitleChange (st : EditorState) (t : Buf) : EditorState :=
  { st with title := t }

/-- The `onChange` handler of the body textarea: `setBody(e.target.value)`. -/
def onBodyChange (st : EditorState) (b : Buf) : EditorState :=
  { st with body := b }

/-- Click on a category entry: `setCategory(cat); setIsDropdownOpen(false)`. -/
def selectCategory (st : EditorState) (c : Buf) : EditorState :=
  { st with category := c, isDropdownOpen := false }

/-- Click on the category button: `setIsDropdownOpen(!isDropdownOpen)`. -/
def toggleDropdown (st : EditorState) : EditorState :=
  { st with isDropdownOpen := !st.isDropdownOpen }

/-- A fresh editor state with the given title, body and category, as
produced by the `useState` initialisers for a new post. -/
def mkState (t b c : Buf) : EditorState :=
  { title := t, body := b, media := [], mediaLoading := false,
    category := c, status := 0, isDropdownOpen := false,
    isAILoading := false, error := [] }

/-! ### Helper lemmas about `jsSubstring` and `wrapText` -/

lemma jsSubstring_eq_take_drop (s : Buf) (a b : Nat) (h1 : a ≤ b)
    (h2 : b ≤ s.length) : jsSubstring s a b = (s.take b).drop a := by
  unfold jsSubstring
  rw [Nat.min_eq_left (h1.trans h2), Nat.min_eq_left h2,
    Nat.max_eq_right h1, Nat.min_eq_left h1]

lemma jsSubstring_zero_left (s : Buf) (a : Nat) (h : a ≤ s.length) :
    jsSubstring s 0 a = s.take a := by
  rw [jsSubstring_eq_take_drop s 0 a (Nat.zero_le a) h, List.drop_zero]

lemma jsSubstring_to_length (s : Buf) (b : Nat) (h : b ≤ s.length) :
    jsSubstring s b s.length = s.drop b := by
  rw [jsSubstring_eq_take_drop s b s.length h le_rfl, List.take_length]

/-- The `selectedText` computed by `wrapText`: the raw slice when the
selection is non-empty, otherwise the fallback. -/
lemma wrapText_selectedText (s fb : Buf) (a b : Nat) (h1 : a ≤ b)
    (h2 : b ≤ s.length) :
    (if (jsSubstring s a b).isEmpty then fb else jsSubstring s a b)
      = if a < b then (s.take b).drop a else fb := by
  rw [jsSubstring_eq_take_drop s a b h1 h2]
  by_cases hab : a < b
  · have hne : (s.take b).drop a ≠ [] := by
      intro hnil
      have := congrArg List.length hnil
      simp [List.length_take] at this
      omega
    simp [List.isEmpty_iff, hne, hab]
  · have hb : a = b := le_antisymm h1 (Nat.not_lt.mp hab)
    subst hb
    have hnil : (s.take a).drop a = [] := by
      rw [List.drop_eq_nil_iff, List.length_take]
      omega
    simp [List.isEmpty_iff, hnil, hab]

/-- Shared shape of the buffer `wrapText` writes back through `setBody`. -/
lemma wrapText_body_eq (st : EditorState) (a b : Nat) (pre suf fb : Buf)
    (h1 : a ≤ b) (h2 : b ≤ st.body.length) :
    (wrapText st a b pre suf fb).1.body =
      st.body.take a ++ pre ++
        (if a < b then (st.body.take b).drop a else fb) ++ suf ++
        st.body.drop b := by
  unfold wrapText
  dsimp only
  rw [wrapText_selectedText _ _ _ _ h1 h2,
    jsSubstring_zero_left _ _ (h1.trans h2), jsSubstring_to_length _ _ h2]

/-- Dropping past a known-length left part and taking the middle part
recovers it. -/
lemma drop_take_middle (A pre X rest : Buf) :
    ((A ++ (pre ++ (X ++ rest))).drop (A.length + pre.length)).take X.length
      = X := by
  have h : A ++ (pre ++ (X ++ rest)) = (A ++ pre) ++ (X ++ rest) := by
    simp [List.append_assoc]
  have h2 : A.length + pre.length = (A ++ pre).length := by simp
  rw [h, h2, List.drop_left, List.take_left]

/-! ### Claim theorems -/

/-- C1: for every buffer text and offsets `0 ≤ start ≤ end ≤ length`,
`wrapText` produces a new body buffer equal to
`text[0:start] ++ prefix ++ (text[start:end]` if the selection is
non-empty, otherwise the fallback`) ++ suffix ++ text[end:]`. -/
theorem wrapText_output_buffer (st : EditorState) (a b : Nat)
    (pre suf fb : Buf) (h1 : a ≤ b) (h2 : b ≤ st.body.length) :
    (wrapText st a b pre suf fb).1.body =
      st.body.take a ++ pre ++
        (if a < b then (st.body.take b).drop a else fb) ++ suf ++
        st.body.drop b :=
  wrapText_body_eq st a b pre suf fb h1 h2

/-- C1 witness: the spec's bold example,
`wrap("hello world", 6, 11, "**", "**", "bold text") = "hello **world**"`. -/
theorem wrapText_output_buffer_witness :
    (wrapText (mkState [] "hello world".toList []) 6 11 "**".toList
        "**".toList "bold text".toList).1.body = "hello **world**".toList := by
  have h := wrapText_output_buffer (mkState [] "hello world".toList []) 6 11
    "**".toList "**".toList "bold text".toList (by decide) (by decide)
  exact h.trans (by decide)

/-- C5: the selection range returned by `wrapText` starts at
`start + length(prefix)`, ends at `start + length(prefix) + length` of the
selected-or-fallback text, and the new body restricted to that range is
exactly the selected-or-fallback text. -/
theorem wrapText_selection_covers (st : EditorState) (a b : Nat)
    (pre suf fb : Buf) (h1 : a ≤ b) (h2 : b ≤ st.body.length) :
    (wrapText st a b pre suf fb).2.1 = a + pre.length ∧
    (wrapText st a b pre suf fb).2.2 = a + pre.length +
      (if a < b then (st.body.take b).drop a else fb).length ∧
    (((wrapText st a b pre suf fb).1.body.drop (a + pre.length)).take
        (if a < b then (st.body.take b).drop a else fb).length)
      = (if a < b then (st.body.take b).drop a else fb) := by
  refine ⟨rfl, ?_, ?_⟩
  · show a + pre.length +
        (if (jsSubstring st.body a b).isEmpty then fb
          else jsSubstring st.body a b).length = _
    rw [wrapText_selectedText _ _ _ _ h1 h2]
  · have hbody := wrapText_body_eq st a b pre suf fb h1 h2
    rw [hbody]
    have hA : (st.body.take a).length = a := by
      rw [List.length_take]
      exact Nat.min_eq_left (h1.trans h2)
    have := drop_take_middle (st.body.take a) pre
      (if a < b then (st.body.take b).drop a else fb)
      (suf ++ st.body.drop b)
    rw [hA] at this
    simpa [List.append_assoc] using this

/-- C5 witness: in the bold example the applied range is `(8, 13)` and the
new body's slice `[8, 13)` is `"world"`. -/
theorem wrapText_selection_covers_witness :
    (wrapText (mkState [] "hello world".toList []) 6 11 "**".toList
        "**".toList "bold text".toList).2.1 = 8 ∧
    (wrapText (mkState [] "hello world".toList []) 6 11 "**".toList
        "**".toList "bold text".toList).2.2 = 13 ∧
    (((wrapText (mkState [] "hello world".toList []) 6 11 "**".toList
        "**".toList "bold text".toList).1.body.drop 8).take 5)
      = "world".toList := by
  have h := wrapText_selection_covers (mkState [] "hello world".toList [])
    6 11 "**".toList "**".toList "bold text".toList (by decide) (by decide)
  exact ⟨h.1.trans (by decide), h.2.1.trans (by decide),
    h.2.2.trans (by decide)⟩

/-- C8: at buffer boundaries (`start = 0` or `end = length`, including the
empty buffer) `wrapText` is still defined and the output formula holds;
the zero-length before/after slices are valid. -/
theorem wrapText_boundary (st : EditorState) (a b : Nat)
    (pre suf fb : Buf) (hb : a = 0 ∨ b = st.body.length) (h1 : a ≤ b)
    (h2 : b ≤ st.body.length) :
    (wrapText st a b pre suf fb).1.body =
      st.body.take a ++ pre ++
        (if a < b then (st.body.take b).drop a else fb) ++ suf ++
        st.body.drop b :=
  wrapText_body_eq st a b pre suf fb h1 h2

/-- C8 witness: the spec's empty-buffer example,
`wrap("", 0, 0, "## ", "\n", "Heading 2") = "## Heading 2\n"`. -/
theorem wrapText_boundary_witness :
    (wrapText (mkState [] [] []) 0 0 "## ".toList "\n".toList
        "Heading 2".toList).1.body = "## Heading 2\n".toList := by
  have h := wrapText_boundary (mkState [] [] []) 0 0 "## ".toList
    "\n".toList "Heading 2".toList (Or.inl rfl) (by decide) (by decide)
  exact h.trans (by decide)

/-- C9: `wrapText` writes only the body buffer: title, media, category,
status, error and the loading/dropdown flags are unchanged. -/
theorem wrapText_frame (st : EditorState) (a b : Nat) (pre suf fb : Buf) :
    (wrapText st a b pre suf fb).1.title = st.title ∧
    (wrapText st a b pre suf fb).1.media = st.media ∧
    (wrapText st a b pre suf fb).1.category = st.category ∧
    (wrapText st a b pre suf fb).1.status = st.status ∧
    (wrapText st a b pre suf fb).1.error = st.error ∧
    (wrapText st a b pre suf fb).1.mediaLoading = st.mediaLoading ∧
    (wrapText st a b pre suf fb).1.isAILoading = st.isAILoading ∧
    (wrapText st a b pre suf fb).1.isDropdownOpen = st.isDropdownOpen :=
  ⟨rfl, rfl, rfl, rfl, rfl, rfl, rfl, rfl⟩

/-- C2 counterexample: with category `"projects"`, title `" "` (non-empty
but whitespace-only), body `"x"` and idle status, the Post button is
enabled (`disabled` is `false`), although the claim requires it disabled
for whitespace-only titles. -/
theorem postDisabled_whitespace_cex :
    jsTrim " ".toList = [] ∧
    postDisabled "projects".toList " ".toList "x".toList 0 = false := by
  constructor <;> decide

/-- C2 (amended): the Post action is disabled exactly when category, title
or body is the empty string or a submission is already in progress;
whitespace-only values do not disable the button, but the submission
handler separately refuses to submit (performs no effect) when the
trimmed title or body is empty. -/
theorem postDisabled_amended :
    (∀ c t b s, postDisabled c t b s = true ↔
      (c = [] ∨ t = [] ∨ b = [] ∨ s = 1)) ∧
    (∀ rules st post user outcome pres path,
      jsTrim st.title = [] ∨ jsTrim st.body = [] →
      (updateArticle rules st post user outcome pres path).events = []) := by
  constructor
  · intro c t b s
    simp [postDisabled, List.isEmpty_iff]
    tauto
  · intro rules st post user outcome pres path h
    by_cases hc : st.category.isEmpty
    · simp [updateArticle, hc]
    · rcases h with h | h
      · simp [updateArticle, hc, h]
      · by_cases ht : (jsTrim st.title).isEmpty
        · simp [updateArticle, hc, ht]
        · simp [updateArticle, hc, ht, h]

/-- C2 witness: an empty title disables the button, and clicking Post with
a whitespace-only title performs no submission effects. -/
theorem postDisabled_amended_witness :
    postDisabled "projects".toList [] "x".toList 0 = true ∧
    (updateArticle ⟨10⟩ (mkState " ".toList "x".toList "projects".toList)
        none none (.result ⟨200, []⟩) (.resp 200 [])
        "/".toList).events = [] := by
  constructor
  · exact (postDisabled_amended.1 "projects".toList [] "x".toList 0).mpr
      (by decide)
  · exact postDisabled_amended.2 ⟨10⟩
      (mkState " ".toList "x".toList "projects".toList) none none
      (.result ⟨200, []⟩) (.resp 200 []) "/".toList (by decide)

/-- C7: when the upload call fails (non-200 status or a thrown exception)
for an image file, `addImage` sets an inline error and leaves the draft
untouched: media, body, title, category and status are unchanged, the
loading flag is cleared, and the Post button's disabled predicate is
unaffected (submission is still possible). -/
theorem addImage_upload_failure (st : EditorState) (f : FileInput)
    (a b : Nat) (upload : FetchResult MediaRef) (link : MediaRef → Buf)
    (himg : isImageType f.ftype = true)
    (hfail : ∀ code res, upload = .resp code res → code ≠ 200) :
    (addImage st (some f) a b upload link).state.error ≠ [] ∧
    (addImage st (some f) a b upload link).state.media = st.media ∧
    (addImage st (some f) a b upload link).state.body = st.body ∧
    (addImage st (some f) a b upload link).state.title = st.title ∧
    (addImage st (some f) a b upload link).state.category = st.category ∧
    (addImage st (some f) a b upload link).state.status = st.status ∧
    (addImage st (some f) a b upload link).state.mediaLoading = false ∧
    postDisabled (addImage st (some f) a b upload link).state.category
        (addImage st (some f) a b upload link).state.title
        (addImage st (some f) a b upload link).state.body
        (addImage st (some f) a b upload link).state.status
      = postDisabled st.category st.title st.body st.status := by
  cases upload with
  | resp code res =>
      have hc : code ≠ 200 := hfail code res rfl
      refine ⟨?_, ?_, ?_, ?_, ?_, ?_, ?_, ?_⟩ <;>
        simp [addImage, himg, hc]
  | exn m =>
      refine ⟨?_, ?_, ?_, ?_, ?_, ?_, ?_, ?_⟩ <;>
        simp [addImage, himg]

/-- C7 witness: a 500 upload response for an image file on a concrete
draft sets an error and changes nothing else. -/
theorem addImage_upload_failure_witness :
    (addImage (mkState "t".toList "x".toList "projects".toList)
      (some ⟨"image/png".toList⟩) 0 1 (.resp 500 [])
      (fun _ => [])).state.error ≠ [] ∧
    (addImage (mkState "t".toList "x".toList "projects".toList)
      (some ⟨"image/png".toList⟩) 0 1 (.resp 500 [])
      (fun _ => [])).state.media = [] ∧
    (addImage (mkState "t".toList "x".toList "projects".toList)
      (some ⟨"image/png".toList⟩) 0 1 (.resp 500 [])
      (fun _ => [])).state.body = "x".toList ∧
    (addImage (mkState "t".toList "x".toList "projects".toList)
      (some ⟨"image/png".toList⟩) 0 1 (.resp 500 [])
      (fun _ => [])).state.status = 0 := by
  have h := addImage_upload_failure
    (mkState "t".toList "x".toList "projects".toList)
    ⟨"image/png".toList⟩ 0 1 (.resp 500 []) (fun _ => []) (by decide)
    (by intro code res hr; cases hr; decide)
  exact ⟨h.1, h.2.1.trans (by decide), h.2.2.1.trans (by decide),
    h.2.2.2.2.2.1.trans (by decide)⟩

/-- C10: when no file is provided, or the file's MIME type does not start
with `image/`, `addImage` makes no upload call, raises and then clears
the media-loading flag, and is otherwise a no-op: the final state differs
from the initial one only in `mediaLoading = false`. -/
theorem addImage_non_image_noop (st : EditorState)
    (file : Option FileInput) (a b : Nat) (upload : FetchResult MediaRef)
    (link : MediaRef → Buf)
    (h : file = none ∨ ∃ f, file = some f ∧ isImageType f.ftype = false) :
    (addImage st file a b upload link).uploads = [] ∧
    (addImage st file a b upload link).loadingTrace = [true, false] ∧
    (addImage st file a b upload link).state
      = { st with mediaLoading := false } := by
  rcases h with rfl | ⟨f, rfl, hf⟩
  · exact ⟨rfl, rfl, rfl⟩
  · cases upload with
    | resp code res => refine ⟨?_, ?_, ?_⟩ <;> simp [addImage, hf]
    | exn m => refine ⟨?_, ?_, ?_⟩ <;> simp [addImage, hf]

/-- C10 witness: a text file is rejected without an upload call or any
state change beyond clearing the loading flag. -/
theorem addImage_non_image_noop_witness :
    (addImage (mkState "t".toList "x".toList "projects".toList)
      (some ⟨"text/plain".toList⟩) 0 0 (.resp 200 [])
      (fun _ => [])).uploads = [] ∧
    (addImage (mkState "t".toList "x".toList "projects".toList)
      (some ⟨"text/plain".toList⟩) 0 0 (.resp 200 [])
      (fun _ => [])).loadingTrace = [true, false] ∧
    (addImage (mkState "t".toList "x".toList "projects".toList)
      (some ⟨"text/plain".toList⟩) 0 0 (.resp 200 [])
      (fun _ => [])).state
      = { (mkState "t".toList "x".toList "projects".toList) with
          mediaLoading := false } := by
  exact addImage_non_image_noop
    (mkState "t".toList "x".toList "projects".toList)
    (some ⟨"text/plain".toList⟩) 0 0 (.resp 200 []) (fun _ => [])
    (Or.inr ⟨⟨"text/plain".toList⟩, rfl, by decide⟩)

/-- C4: whenever the create/edit call returns status 200 (and validation
passed so the call was made), the draft fields title, body, media and
category are all reset to their empty initial values. -/
theorem updateArticle_success_resets (rules : PointsRules)
    (st : EditorState) (post user : Option Buf) (res : OrbisRes)
    (pres : FetchResult Buf) (path : Buf) (hv : draftValid st)
    (h200 : res.status = 200) :
    (updateArticle rules st post user (.result res) pres
      path).state.title = [] ∧
    (updateArticle rules st post user (.result res) pres
      path).state.body = [] ∧
    (updateArticle rules st post user (.result res) pres
      path).state.media = [] ∧
    (updateArticle rules st post user (.result res) pres
      path).state.category = [] := by
  obtain ⟨hc, ht, hb⟩ := hv
  refine ⟨?_, ?_, ?_, ?_⟩ <;>
    simp [updateArticle, List.isEmpty_iff, hc, ht, hb, h200, resetForm]

/-- C4 witness: a concrete successful submission clears the draft. -/
theorem updateArticle_success_resets_witness :
    (updateArticle ⟨10⟩ (mkState "t".toList "x".toList "projects".toList)
      none (some "did:me".toList) (.result ⟨200, []⟩) (.resp 200 [])
      "/".toList).state.title = [] ∧
    (updateArticle ⟨10⟩ (mkState "t".toList "x".toList "projects".toList)
      none (some "did:me".toList) (.result ⟨200, []⟩) (.resp 200 [])
      "/".toList).state.body = [] ∧
    (updateArticle ⟨10⟩ (mkState "t".toList "x".toList "projects".toList)
      none (some "did:me".toList) (.result ⟨200, []⟩) (.resp 200 [])
      "/".toList).state.media = [] ∧
    (updateArticle ⟨10⟩ (mkState "t".toList "x".toList "projects".toList)
      none (some "did:me".toList) (.result ⟨200, []⟩) (.resp 200 [])
      "/".toList).state.category = [] := by
  exact updateArticle_success_resets ⟨10⟩
    (mkState "t".toList "x".toList "projects".toList) none
    (some "did:me".toList) ⟨200, []⟩ (.resp 200 []) "/".toList
    (by decide) rfl

/-- C3: on a successful creation (no existing post, connected user) the
points service is called exactly once, with the user's `did` and the
configured `CREATE_POST` value, the status shown is success, and the
whole outcome is independent of the points response (a points failure is
swallowed and changes nothing). -/
theorem updateArticle_awards_points_once (rules : PointsRules)
    (st : EditorState) (did : Buf) (res : OrbisRes)
    (pr pr' : FetchResult Buf) (path : Buf) (hv : draftValid st)
    (h200 : res.status = 200) :
    pointsCallsOf (updateArticle rules st none (some did) (.result res)
        pr path).events = [(did, rules.CREATE_POST)] ∧
    (updateArticle rules st none (some did) (.result res) pr
      path).state.status = 2 ∧
    updateArticle rules st none (some did) (.result res) pr path
      = updateArticle rules st none (some did) (.result res) pr' path := by
  obtain ⟨hc, ht, hb⟩ := hv
  refine ⟨?_, ?_, rfl⟩
  · by_cases hp : path = "/".toList <;>
      simp [updateArticle, List.isEmpty_iff, hc, ht, hb, h200,
        pointsCallsOf, hp]
  · simp [updateArticle, List.isEmpty_iff, hc, ht, hb, h200, resetForm]

/-- C3 witness: with a failing points response (`exn`) the call list and
the success status are the same as with a succeeding one. -/
theorem updateArticle_awards_points_once_witness :
    pointsCallsOf (updateArticle ⟨10⟩
      (mkState "t".toList "x".toList "projects".toList) none
      (some "did:me".toList) (.result ⟨200, []⟩) (.exn "down".toList)
      "/".toList).events = [("did:me".toList, 10)] ∧
    (updateArticle ⟨10⟩ (mkState "t".toList "x".toList "projects".toList)
      none (some "did:me".toList) (.result ⟨200, []⟩)
      (.exn "down".toList) "/".toList).state.status = 2 ∧
    updateArticle ⟨10⟩ (mkState "t".toList "x".toList "projects".toList)
      none (some "did:me".toList) (.result ⟨200, []⟩)
      (.exn "down".toList) "/".toList
      = updateArticle ⟨10⟩
        (mkState "t".toList "x".toList "projects".toList) none
        (some "did:me".toList) (.result ⟨200, []⟩) (.resp 200 [])
        "/".toList := by
  exact updateArticle_awards_points_once ⟨10⟩
    (mkState "t".toList "x".toList "projects".toList) "did:me".toList
    ⟨200, []⟩ (.exn "down".toList) (.resp 200 []) "/".toList
    (by decide) rfl

/-- C6: the submission status is changed only by `updateArticle`, and only
according to the outcome: no effects when validation fails, `setStatus`
trace `[1, 2]` (submitting then success) on a 200 result, and trace
`[1, 3, 0]` (submitting, error, then back to idle after the fixed
1000 ms sleep) on a non-200 result or a thrown error; every other
operation of the component leaves `status` unchanged. -/
theorem submission_status_transitions (rules : PointsRules)
    (st : EditorState) (post user : Option Buf) (pres : FetchResult Buf)
    (path : Buf) :
    (∀ outcome, ¬ draftValid st →
      (updateArticle rules st post user outcome pres path).events = [] ∧
      (updateArticle rules st post user outcome pres path).state.status
        = st.status) ∧
    (∀ res : OrbisRes, draftValid st → res.status = 200 →
      statusTraceOf (updateArticle rules st post user (.result res) pres
        path).events = [1, 2] ∧
      (updateArticle rules st post user (.result res) pres
        path).state.status = 2) ∧
    (∀ res : OrbisRes, draftValid st → res.status ≠ 200 →
      statusTraceOf (updateArticle rules st post user (.result res) pres
        path).events = [1, 3, 0] ∧
      (updateArticle rules st post user (.result res) pres path).events
        = [Ev.setStatus 1,
           if post.isSome then Ev.submitEdit else Ev.submitCreate,
           Ev.setStatus 3, Ev.sleep 1000, Ev.setStatus 0] ∧
      (updateArticle rules st post user (.result res) pres
        path).state.status = 0) ∧
    (∀ msg, draftValid st →
      statusTraceOf (updateArticle rules st post user (.thrown msg) pres
        path).events = [1, 3, 0] ∧
      (updateArticle rules st post user (.thrown msg) pres
        path).state.status = 0) ∧
    (∀ a b pre suf fb, (wrapText st a b pre suf fb).1.status = st.status) ∧
    (∀ file a b upload link,
      (addImage st file a b upload link).state.status = st.status) ∧
    (∀ u resp, (generatePostWithAI st u resp).status = st.status) ∧
    ((resetForm st).status = st.status ∧
      (∀ t, (onTitleChange st t).status = st.status) ∧
      (∀ b, (onBodyChange st b).status = st.status) ∧
      (∀ c, (selectCategory st c).status = st.status) ∧
      (toggleDropdown st).status = st.status) := by
  refine ⟨?_, ?_, ?_, ?_, ?_, ?_, ?_, ?_⟩
  · intro outcome hnv
    by_cases hc : st.category.isEmpty
    · exact ⟨by simp [updateArticle, hc], by simp [updateArticle, hc]⟩
    · by_cases ht : (jsTrim st.title).isEmpty
      · exact ⟨by simp [updateArticle, hc, ht],
          by simp [updateArticle, hc, ht]⟩
      · by_cases hb : (jsTrim st.body).isEmpty
        · exact ⟨by simp [updateArticle, hc, ht, hb],
            by simp [updateArticle, hc, ht, hb]⟩
        · exfalso
          simp only [List.isEmpty_iff] at hc ht hb
          exact hnv ⟨hc, ht, hb⟩
  · intro res hv h200
    obtain ⟨hc, ht, hb⟩ := hv
    constructor
    · rcases post with _ | p <;> rcases user with _ | u <;>
        by_cases hp : path = "/".toList <;>
        simp [updateArticle, List.isEmpty_iff, hc, ht, hb, h200,
          statusTraceOf, hp]
    · simp [updateArticle, List.isEmpty_iff, hc, ht, hb, h200, resetForm]
  · intro res hv hne
    obtain ⟨hc, ht, hb⟩ := hv
    refine ⟨?_, ?_, ?_⟩ <;>
      rcases post with _ | p <;>
      simp [updateArticle, List.isEmpty_iff, hc, ht, hb, hne,
        statusTraceOf]
  · intro msg hv
    obtain ⟨hc, ht, hb⟩ := hv
    refine ⟨?_, ?_⟩ <;>
      rcases post with _ | p <;>
      simp [updateArticle, List.isEmpty_iff, hc, ht, hb, statusTraceOf]
  · intro a b pre suf fb
    rfl
  · intro file a b upload link
    rcases file with _ | f
    · rfl
    · rcases upload with ⟨code, r⟩ | m
      · by_cases hi : isImageType f.ftype <;>
          by_cases hcode : code = 200 <;>
          simp [addImage, hi, hcode, wrapText]
      · by_cases hi : isImageType f.ftype <;> simp [addImage, hi]
  · intro u resp
    rcases u with _ | u
    · rfl
    · rcases resp with ⟨code, content⟩ | m
      · by_cases hok : 200 ≤ code ∧ code < 300 <;>
          simp [generatePostWithAI, hok]
      · simp [generatePostWithAI]
  · exact ⟨rfl, fun t => rfl, fun b => rfl, fun c => rfl, rfl⟩

/-- C6 witness: concrete traces — `[1, 2]` for a 200 result, `[1, 3, 0]`
for a 500 result, and no effects when the draft is invalid (empty body). -/
theorem submission_status_transitions_witness :
    statusTraceOf (updateArticle ⟨10⟩
      (mkState "t".toList "x".toList "projects".toList) none
      (some "did:me".toList) (.result ⟨200, []⟩) (.resp 200 [])
      "/".toList).events = [1, 2] ∧
    statusTraceOf (updateArticle ⟨10⟩
      (mkState "t".toList "x".toList "projects".toList) none
      (some "did:me".toList) (.result ⟨500, "boom".toList⟩)
      (.resp 200 []) "/".toList).events = [1, 3, 0] ∧
    (updateArticle ⟨10⟩ (mkState "t".toList [] "projects".toList) none
      none (.result ⟨200, []⟩) (.resp 200 []) "/".toList).events = [] := by
  have h1 := submission_status_transitions ⟨10⟩
    (mkState "t".toList "x".toList "projects".toList) none
    (some "did:me".toList) (.resp 200 []) "/".toList
  have h2 := submission_status_transitions ⟨10⟩
    (mkState "t".toList [] "projects".toList) none none (.resp 200 [])
    "/".toList
  exact ⟨(h1.2.1 ⟨200, []⟩ (by decide) rfl).1,
    (h1.2.2.1 ⟨500, "boom".toList⟩ (by decide) (by decide)).1,
    (h2.1 (.result ⟨200, []⟩) (by decide)).1⟩
